import Mathlib

/-!
Verification of the incremental sync engine of the onedrive-backup
repository (`src/onedrive_backup/sync/backup_manager.py`).  The Python
functions that the claims touch are shallowly embedded as executable
Lean definitions: server interaction becomes a function from endpoint
URLs to responses, generators become lists of emissions, and the
producer/worker threading of `_process_items_with_delta` becomes an
explicit event-trace model.
-/

namespace OnedriveBackup

/-- A drive item as it appears in a Graph delta or children page.
Optional JSON fields are modelled exactly as the Python reads them:
`item.get('@microsoft.graph.downloadUrl', '')` and
`parent_ref.get('driveId', '')` default to the empty string, facets
(`deleted`, `folder`, `file`) are truthiness checks. -/
structure Item where
  id : String
  name : String
  deleted : Bool
  folder : Bool
  file : Bool
  mimeType : Option String
  size : Nat
  lastModifiedDateTime : String
  downloadUrl : String
  parentPath : String
  parentDriveId : String
deriving DecidableEq

/-- The dictionary yielded for each emitted file by
`_stream_delta_files` (lines 1172-1180 of backup_manager.py). -/
structure FileInfo where
  id : String
  name : String
  path : String
  size : Nat
  lastModifiedDateTime : String
  mimeType : String
  downloadUrl : String
deriving DecidableEq

/-- One element of the generator's output stream: either a file record
or the terminal marker dict carrying the new delta link. -/
inductive Emission where
  | file (f : FileInfo)
  | deltaToken (url : String)
deriving DecidableEq

/-- Pagination state of a delta page: `@odata.nextLink`,
`@odata.deltaLink`, or neither. -/
inductive PageLink where
  | nextLink (url : String)
  | deltaLink (url : String)
  | noLink
deriving DecidableEq

/-- A parsed delta page: `value` items plus the pagination link. -/
structure DeltaPage where
  value : List Item
  link : PageLink
deriving DecidableEq

/-- Outcome of `requests.get` on an endpoint, after the 429/401 retry
handling has run: either a 200 page or a terminal non-200 status. -/
inductive HttpResponse where
  | ok (page : DeltaPage)
  | err (status : Nat)
deriving DecidableEq

/-- The fixed arguments of `_stream_delta_files`: resource type
(`users` or `drives`), resource id, and the path namespace for the
target. -/
structure WalkArgs where
  resourceType : String
  resourceId : String
  basePath : String
deriving DecidableEq

/-- Whether `pat` is an initial segment of `l`. -/
def matchesAt : List Char → List Char → Bool
  | [], _ => true
  | _ :: _, [] => false
  | p :: ps, c :: cs => p = c && matchesAt ps cs

/-- Replace every (non-overlapping, leftmost-first) occurrence of
`pat` in the character list, scanning left to right; the fuel is the
input length, enough for any non-empty pattern. -/
def replaceChars (pat rep : List Char) : Nat → List Char → List Char
  | _, [] => []
  | 0, l => l
  | fuel + 1, c :: cs =>
    if matchesAt pat (c :: cs) then
      rep ++ replaceChars pat rep fuel (List.drop pat.length (c :: cs))
    else c :: replaceChars pat rep fuel cs

/-- Python `s.replace(pat, rep)` for a non-empty pattern. -/
def pyReplace (s pat rep : String) : String :=
  String.mk (replaceChars pat.toList rep.toList s.toList.length s.toList)

/-- Value of a decimal digit. -/
def digitVal (c : Char) : Option Nat :=
  if '0' ≤ c ∧ c ≤ '9' then some (c.toNat - '0'.toNat) else none

/-- Accumulate a decimal number; fails on any non-digit. -/
def parseDigitsAux : List Char → Nat → Option Nat
  | [], acc => some acc
  | c :: cs, acc =>
    match digitVal c with
    | some d => parseDigitsAux cs (acc * 10 + d)
    | none => none

/-- Python `int(s)` for a plain optionally-signed decimal string (the
shape a `Retry-After` header takes); anything else raises
`ValueError`, modelled as `none`. -/
def pyInt (s : String) : Option Int :=
  match s.toList with
  | [] => none
  | '-' :: rest =>
    if rest = [] then none
    else (parseDigitsAux rest 0).map fun n => -(n : Int)
  | '+' :: rest =>
    if rest = [] then none
    else (parseDigitsAux rest 0).map fun n => (n : Int)
  | l => (parseDigitsAux l 0).map fun n => (n : Int)

/-- Python `s.lstrip('/')`. -/
def lstripSlashes (s : String) : String :=
  String.mk (s.toList.dropWhile fun c => c = '/')

/-- Python `s.strip('/')`. -/
def stripSlashes (s : String) : String :=
  String.mk (((s.toList.dropWhile fun c => c = '/').reverse.dropWhile
    fun c => c = '/').reverse)

/-- Line 1140: `parent_ref.get('path', '').replace('/drive/root:', '').strip('/')`. -/
def parentPathOf (item : Item) : String :=
  stripSlashes (pyReplace item.parentPath "/drive/root:" "")

/-- Lines 1142-1151: build `full_path` from the path namespace, the
stripped parent path and the item name. -/
def buildFullPath (basePath parentPath name : String) : String :=
  if basePath ≠ "" then
    if parentPath ≠ "" then basePath ++ "/" ++ parentPath ++ "/" ++ name
    else basePath ++ "/" ++ name
  else
    if parentPath ≠ "" then parentPath ++ "/" ++ name
    else name

/-- Line 1029/1083/1110: the fresh delta endpoint for a resource. -/
def freshDeltaEndpoint (args : WalkArgs) : String :=
  "https://graph.microsoft.com/v1.0/" ++ args.resourceType ++ "/" ++
    args.resourceId ++ "/drive/root/delta"

/-- Line 1165: the `/drives/{driveId}/items/{itemId}/content` URL. -/
def driveContentUrl (driveId itemId : String) : String :=
  "https://graph.microsoft.com/v1.0/drives/" ++ driveId ++ "/items/" ++
    itemId ++ "/content"

/-- Line 1168: the resource-type fallback `/content` URL. -/
def resourceContentUrl (args : WalkArgs) (itemId : String) : String :=
  "https://graph.microsoft.com/v1.0/" ++ args.resourceType ++ "/" ++
    args.resourceId ++ "/drive/items/" ++ itemId ++ "/content"

/-- Lines 1153-1170: keep the page's download URL when present;
otherwise, when the item id is non-empty, synthesize the
`/drives/{driveId}` URL from `parentReference.driveId`, falling back
to the resource-type URL when `driveId` is empty. -/
def computeDownloadUrl (args : WalkArgs) (item : Item) : String :=
  if item.downloadUrl ≠ "" then item.downloadUrl
  else if item.id ≠ "" then
    if item.parentDriveId ≠ "" then driveContentUrl item.parentDriveId item.id
    else resourceContentUrl args item.id
  else item.downloadUrl

/-- Lines 1122-1180: the per-item body of the delta page loop.  Deleted
items and folders are skipped, only items with the `file` facet are
yielded, and the yielded dictionary is built as in lines 1172-1180. -/
def emitItem (args : WalkArgs) (item : Item) : Option FileInfo :=
  if item.deleted then none
  else if item.folder then none
  else if item.file then
    some
      { id := item.id
        name := item.name
        path := buildFullPath args.basePath (parentPathOf item) item.name
        size := item.size
        lastModifiedDateTime := item.lastModifiedDateTime
        mimeType := item.mimeType.getD "application/octet-stream"
        downloadUrl := computeDownloadUrl args item }
  else none

/-- The file records produced from the items of one delta page. -/
def processDeltaItems (args : WalkArgs) (items : List Item) : List FileInfo :=
  items.filterMap (emitItem args)

/-- Lines 1084-1100: after the fallback walk, page through a fresh
`/delta` only to obtain the terminal delta link; items on these pages
are never yielded.  A non-200 response or a page with no link ends the
loop with no token. -/
def fetchDeltaLink (server : String → HttpResponse) : String → Nat → List Emission
  | _, 0 => []
  | endpoint, fuel + 1 =>
    match server endpoint with
    | .ok page =>
      match page.link with
      | .deltaLink d => [Emission.deltaToken d]
      | .nextLink n => fetchDeltaLink server n fuel
      | .noLink => []
    | .err _ => []

/-- Lines 1072-1102: the 410 branch when a fallback timestamp is
stored. `fallbackFiles` is the sequence produced by
`fallback_func(modified_after)`; after yielding it the generator pages
a fresh delta solely for the new delta link and returns. -/
def handleDeltaExpired (server : String → HttpResponse) (args : WalkArgs)
    (fallbackFiles : List FileInfo) (fuel : Nat) : List Emission :=
  fallbackFiles.map Emission.file ++ fetchDeltaLink server (freshDeltaEndpoint args) fuel

/-- Lines 1034-1199: the main `while endpoint:` loop of
`_stream_delta_files`.  `fallbackFiles = some fs` models a stored
cursor whose `last_backup_time` parses, with `fs` the output of the
recursive fallback walk; `none` models a cursor without a usable
timestamp (line 1110: restart with a fresh full delta).  The fuel
bounds the number of requests followed. -/
def streamDeltaLoop (server : String → HttpResponse) (args : WalkArgs)
    (fallbackFiles : Option (List FileInfo)) : String → Nat → List Emission
  | _, 0 => []
  | endpoint, fuel + 1 =>
    match server endpoint with
    | .err status =>
      if status = 410 then
        match fallbackFiles with
        | some fs => handleDeltaExpired server args fs (fuel + 1)
        | none => streamDeltaLoop server args none (freshDeltaEndpoint args) fuel
      else []
    | .ok page =>
      (processDeltaItems args page.value).map Emission.file ++
        match page.link with
        | .nextLink n => streamDeltaLoop server args fallbackFiles n fuel
        | .deltaLink d => [Emission.deltaToken d]
        | .noLink => []

/-- Lines 1024-1030 plus the loop: `_stream_delta_files` starts from
the stored delta token URL when one exists, else from the fresh delta
endpoint. -/
def stream_delta_files (server : String → HttpResponse) (args : WalkArgs)
    (fallbackFiles : Option (List FileInfo)) (deltaToken : Option String)
    (fuel : Nat) : List Emission :=
  streamDeltaLoop server args fallbackFiles (deltaToken.getD (freshDeltaEndpoint args)) fuel

/-- Lines 698-702: the producer captures the last `_delta_token`
marker seen on the stream into `final_delta_token`. -/
def finalDeltaToken (ems : List Emission) : Option String :=
  ems.foldl
    (fun acc e =>
      match e with
      | .deltaToken t => some t
      | .file _ => acc)
    none

/-- Events of one target's pipeline in `_process_items_with_delta`
(lines 683-722), covering both the producer thread and a worker
thread. -/
inductive SysEvent where
  | enqueue (f : FileInfo)
  | saveCursor (t : String)
  | signalDone
  | joinWorkers
  | dequeue (f : FileInfo)
  | processedFile (f : FileInfo)
  | dequeueSentinel
  | workerExit
deriving DecidableEq

/-- Whether an event belongs to the producer thread's program order. -/
def SysEvent.isProducer : SysEvent → Bool
  | .enqueue _ => true
  | .saveCursor _ => true
  | .signalDone => true
  | .joinWorkers => true
  | _ => false

/-- Lines 697-722 in program order: the producer enqueues each file
emission (token markers are captured, not enqueued), then — when a
non-empty token was captured and the job is not a dry run — saves the
cursor via `_save_delta_token`, then enqueues the sentinels
(`signal_done`), then joins the worker futures. -/
def producer_trace (ems : List Emission) (dryRun : Bool) : List SysEvent :=
  (ems.filterMap fun e =>
    match e with
    | .file f => some (SysEvent.enqueue f)
    | .deltaToken _ => none) ++
  (match finalDeltaToken ems with
   | some t => if t ≠ "" ∧ dryRun = false then [SysEvent.saveCursor t] else []
   | none => []) ++
  [SysEvent.signalDone, SysEvent.joinWorkers]

/-- Event `a` occurs strictly before event `b` in the schedule. -/
def Precedes (sched : List SysEvent) (a b : SysEvent) : Prop :=
  a ∈ sched ∧ b ∈ sched ∧ sched.indexOf a < sched.indexOf b

/-- The possible interleavings of the producer thread with a single
worker thread in `_process_items_with_delta`, for runs in which the
worker drains the queue (its 40-second dequeue timeout never fires):
the producer's events appear in the order of `producer_trace`, each
dequeue follows the matching enqueue, processing follows the dequeue,
the sentinel is dequeued only after `signal_done` sent it, the worker
exits after consuming the sentinel, the join returns only after the
worker exited, and every enqueued file is eventually processed. -/
def ValidSchedule (ems : List Emission) (dryRun : Bool)
    (sched : List SysEvent) : Prop :=
  sched.Nodup ∧
  sched.filter SysEvent.isProducer = producer_trace ems dryRun ∧
  (∀ f, SysEvent.dequeue f ∈ sched →
    Precedes sched (SysEvent.enqueue f) (SysEvent.dequeue f)) ∧
  (∀ f, SysEvent.processedFile f ∈ sched →
    Precedes sched (SysEvent.dequeue f) (SysEvent.processedFile f)) ∧
  (SysEvent.dequeueSentinel ∈ sched →
    Precedes sched SysEvent.signalDone SysEvent.dequeueSentinel) ∧
  (SysEvent.workerExit ∈ sched →
    Precedes sched SysEvent.dequeueSentinel SysEvent.workerExit) ∧
  (SysEvent.joinWorkers ∈ sched →
    Precedes sched SysEvent.workerExit SysEvent.joinWorkers) ∧
  (∀ f, SysEvent.enqueue f ∈ sched → SysEvent.processedFile f ∈ sched)

/-- Outcome of the S3 head request issued by `_check_s3_file_exists`
(lines 358-406): the object is present (carrying the
`source-modified-time` metadata value, `''` when the header is
absent), absent (404), some other client error, or an exception. -/
inductive HeadOutcome where
  | present (sourceModifiedTime : String)
  | notFound
  | clientError (code : String)
  | exnFailure
deriving DecidableEq

/-- Lines 347-406: `_check_s3_file_exists` returns `True` exactly when
the destination is S3, the head request succeeds, and the stored
`source-modified-time` metadata equals the incoming modification time
byte-exactly; a 404, any other client error, and any exception all
return `False`. -/
def check_s3_file_exists (destType : String) (head : HeadOutcome)
    (sourceModifiedTime : String) : Bool :=
  if destType ≠ "aws_s3" then false
  else
    match head with
    | .present existing => existing = sourceModifiedTime
    | .notFound => false
    | .clientError _ => false
    | .exnFailure => false

/-- The head outcome produced by a destination that answers the head
request normally: `none` (no object at the key) is a 404, `some m` is
a 200 whose `source-modified-time` metadata is `m`. -/
def headOf (stored : Option String) : HeadOutcome :=
  match stored with
  | none => HeadOutcome.notFound
  | some m => HeadOutcome.present m

/-- The arguments of one `update_stats` call (lines 97-115). -/
structure StatsCall where
  uploaded : Bool
  skipped : Bool
  bytes : Nat
  error : Option String
deriving DecidableEq

/-- Externally visible I/O of the worker's per-file pipeline. -/
inductive WorkerEffect where
  | download (url : String)
  | upload (key : String)
deriving DecidableEq

/-- The per-file environment seen by `_parallel_upload_worker`:
destination type, the outcome of the head request for this file's
key, the dry-run flag, and whether `_stream_upload_file` reports
success. -/
structure WorkerEnv where
  destType : String
  head : HeadOutcome
  dryRun : Bool
  uploadSucceeds : Bool
  destPref : String
deriving DecidableEq

/-- Lines 363-364 and 1484-1485: the S3 key is the destination key
namespace concatenated with the file path, with leading slashes
stripped. -/
def s3Key (destPref path : String) : String :=
  lstripSlashes (destPref ++ path)

/-- Lines 586-627: the body of `_parallel_upload_worker` for one
dequeued file, returning the single `update_stats` call it makes and
the download/upload effects it performs.  Order of the code: skip
check, dry-run check, missing-download-URL check, then download and
streaming upload via `_stream_upload_file`. -/
def parallel_upload_worker_step (env : WorkerEnv) (f : FileInfo) :
    StatsCall × List WorkerEffect :=
  if check_s3_file_exists env.destType env.head f.lastModifiedDateTime then
    ({ uploaded := false, skipped := true, bytes := 0, error := none }, [])
  else if env.dryRun then
    ({ uploaded := true, skipped := false, bytes := f.size, error := none }, [])
  else if f.downloadUrl = "" then
    ({ uploaded := false, skipped := false, bytes := 0
       error := some ("No download URL for " ++ f.path) }, [])
  else if env.uploadSucceeds then
    ({ uploaded := true, skipped := false, bytes := f.size, error := none },
      [WorkerEffect.download f.downloadUrl,
       WorkerEffect.upload (s3Key env.destPref f.path)])
  else
    ({ uploaded := false, skipped := false, bytes := 0
       error := some ("Upload failed for " ++ f.path ++ ": see log") },
      [WorkerEffect.download f.downloadUrl])

/-- The shared statistics of `FileQueueManager` (lines 40-45). -/
structure Stats where
  files_processed : Nat
  files_uploaded : Nat
  files_skipped : Nat
  bytes_transferred : Nat
  errors : List String
deriving DecidableEq

/-- The zero statistics set in `__init__` (lines 41-45). -/
def initStats : Stats :=
  { files_processed := 0, files_uploaded := 0, files_skipped := 0
    bytes_transferred := 0, errors := [] }

/-- Lines 97-115: one `update_stats` call executed atomically (the
statement sequence of the method body; `if error:` is Python
truthiness, so an empty error string appends nothing). -/
def update_stats (s : Stats) (c : StatsCall) : Stats :=
  let s1 := { s with files_processed := s.files_processed + 1 }
  let s2 :=
    if c.uploaded then
      { s1 with files_uploaded := s1.files_uploaded + 1
                bytes_transferred := s1.bytes_transferred + c.bytes }
    else s1
  let s3 :=
    if c.skipped then { s2 with files_skipped := s2.files_skipped + 1 }
    else s2
  match c.error with
  | some e => if e ≠ "" then { s3 with errors := s3.errors ++ [e] } else s3
  | none => s3

/-- Running a sequence of serialized `update_stats` calls. -/
def runStats (calls : List StatsCall) : Stats :=
  calls.foldl update_stats initStats

/-- Shared-memory state for the unlocked `self.files_processed += 1`
of `update_stats` (line 108): the shared counter plus the temporaries
each of two worker threads reads it into. -/
structure RaceState where
  processed : Nat
  temp0 : Nat
  temp1 : Nat
deriving DecidableEq

/-- A micro-operation of worker 0 or worker 1 executing
`self.files_processed += 1` with `results_lock` commented out
(line 107): the read of `files_processed` and the store of the
incremented temporary interleave freely between threads. -/
inductive RaceOp where
  | read0
  | write0
  | read1
  | write1
deriving DecidableEq

/-- Effect of a single micro-operation on the shared state. -/
def raceStep (s : RaceState) : RaceOp → RaceState
  | .read0 => { s with temp0 := s.processed }
  | .write0 => { s with processed := s.temp0 + 1 }
  | .read1 => { s with temp1 := s.processed }
  | .write1 => { s with processed := s.temp1 + 1 }

/-- Run an interleaved schedule of the two workers' micro-operations. -/
def runRace (sched : List RaceOp) (s : RaceState) : RaceState :=
  sched.foldl raceStep s

/-- A schedule respects each worker thread's program order when its
read of the counter comes before its write. -/
def raceProgramOrder (sched : List RaceOp) : Prop :=
  sched.indexOf RaceOp.read0 < sched.indexOf RaceOp.write0 ∧
  sched.indexOf RaceOp.read1 < sched.indexOf RaceOp.write1

/-- Lines 1044-1056: the 429 handling around a delta page request.
After the initial request came back 429, the loop sleeps
`retry_delay` (starting at 1 s), re-issues the request, breaks on 200
and otherwise doubles the delay, for at most 5 retries.  The input is
the sequence of statuses returned by the successive retried requests;
the output is the list of sleeps performed.  No `Retry-After` header
is ever consulted and no cap is applied to the doubling. -/
def deltaBackoffWaits : Nat → Int → List Nat → List Int
  | 0, _, _ => []
  | _ + 1, _, [] => []
  | n + 1, delay, st :: rest =>
    delay :: (if st = 200 then [] else deltaBackoffWaits n (delay * 2) rest)

/-- The sleeps of the delta-page 429 loop with its initial values
`retry_delay = 1`, `max_retries = 5` (lines 1046-1047). -/
def deltaRetrySleeps (statuses : List Nat) : List Int :=
  deltaBackoffWaits 5 1 statuses

/-- Lines 1531-1553 (and identically 1494-1527 for authenticated
downloads): the download retry loop of `_stream_to_aws_s3`.  Each
element of the input is the status of one attempt together with its
`Retry-After` header; on 429 the loop waits `int(Retry-After)` when
the header parses, else the current `retry_delay`, then doubles the
delay capped at 60 s; 200 and any other status end the loop; at most
5 attempts are made and no sleep follows the final attempt. -/
def downloadRetryWaits : Nat → Int → List (Nat × Option String) → List Int
  | 0, _, _ => []
  | _ + 1, _, [] => []
  | n + 1, delay, (st, ra) :: rest =>
    if st = 200 then []
    else if st = 429 then
      let wait : Int :=
        match ra with
        | some s => (pyInt s).getD delay
        | none => delay
      if n = 0 then []
      else wait :: downloadRetryWaits n (min (delay * 2) 60) rest
    else []

/-- The sleeps of the download 429 loop with its initial values
`retry_delay = 1`, `max_retries = 5` (lines 1495-1496, 1531-1532). -/
def downloadRetrySleeps (attempts : List (Nat × Option String)) : List Int :=
  downloadRetryWaits 5 1 attempts

/-- The exponential-backoff schedule 1, 2, 4, ... of a given length,
starting from a given delay. -/
def deltaWaitsFull : Nat → Int → List Int
  | 0, _ => []
  | n + 1, delay => delay :: deltaWaitsFull n (delay * 2)

/-- Per-target statistics as aggregated by
`_process_items_with_delta` (lines 647-653 and 724-730). -/
structure TargetStats where
  files_processed : Nat
  files_uploaded : Nat
  files_skipped : Nat
  bytes_transferred : Nat
  errors : List String
deriving DecidableEq

/-- Lines 724-730: summing the per-item queue-manager statistics into
the source-level result. -/
def aggregateStats (l : List TargetStats) : TargetStats :=
  l.foldl
    (fun acc t =>
      { files_processed := acc.files_processed + t.files_processed
        files_uploaded := acc.files_uploaded + t.files_uploaded
        files_skipped := acc.files_skipped + t.files_skipped
        bytes_transferred := acc.bytes_transferred + t.bytes_transferred
        errors := acc.errors ++ t.errors })
    { files_processed := 0, files_uploaded := 0, files_skipped := 0
      bytes_transferred := 0, errors := [] }

/-- Lines 321 and 423: the destination key of the per-source record,
the key namespace followed by `.backup-metadata/` and the source
name with suffix `_last_backup.json`, leading slashes stripped. -/
def backupMetadataKey (destPref source : String) : String :=
  lstripSlashes (destPref ++ ".backup-metadata/" ++ source ++ "_last_backup.json")

/-- Lines 549-553 of `_process_source`: after the per-target results
are aggregated, `_save_backup_timestamp` is called exactly when
`results['files_uploaded'] > 0` and the job is not a dry run.  The
result is the list of destination keys written by this step. -/
def processSourceSaves (agg : TargetStats) (dryRun : Bool)
    (destPref source : String) : List String :=
  if 0 < agg.files_uploaded ∧ dryRun = false then
    [backupMetadataKey destPref source]
  else []

/-- The download response consumed by `_stream_to_aws_s3`: HTTP
status and the full body bytes. -/
structure DownloadResp where
  status : Nat
  content : List Nat
deriving DecidableEq

/-- Lines 1555-1563: on a 200 download, `_stream_to_aws_s3` builds
`file_content = io.BytesIO(response.content)` — `response.content`
materializes the entire body, so the buffer handed to
`upload_fileobj` holds every byte of the file at once. -/
def streamToS3Buffer (resp : DownloadResp) : List Nat :=
  if resp.status = 200 then resp.content else []

/-- The recommended fixed copy chunk of the specification (64 KiB). -/
def specChunkBound : Nat := 65536

/-- The `update_stats(skipped=True)` call of line 594. -/
def skippedCall : StatsCall :=
  { uploaded := false, skipped := true, bytes := 0, error := none }

/-- Interleaving of the two workers' unlocked `files_processed += 1`:
both read the counter before either writes it back. -/
def c3Sched : List RaceOp :=
  [RaceOp.read0, RaceOp.read1, RaceOp.write0, RaceOp.write1]

/-- Walk arguments of a personal-drive target used in concrete runs. -/
def wArgs : WalkArgs :=
  { resourceType := "users", resourceId := "u1", basePath := "alice" }

/-- A concrete emitted file record. -/
def c1File : FileInfo :=
  { id := "f1", name := "a.txt", path := "alice/a.txt", size := 5
    lastModifiedDateTime := "2024-01-01T00:00:00Z", mimeType := "text/plain"
    downloadUrl := "https://dl.example/a" }

/-- A concrete terminal delta link. -/
def c1Token : String := "https://graph.microsoft.com/v1.0/delta?token=new"

/-- A walker output stream: one file, then the terminal marker. -/
def c1Ems : List Emission := [Emission.file c1File, Emission.deltaToken c1Token]

/-- A schedule of `_process_items_with_delta` with one worker in which
the producer saves the cursor (line 709) while the worker is still
processing the enqueued file: every causality constraint of the code
is respected, yet the cursor write precedes the worker's completion. -/
def c1Sched : List SysEvent :=
  [SysEvent.enqueue c1File, SysEvent.saveCursor c1Token, SysEvent.dequeue c1File,
   SysEvent.processedFile c1File, SysEvent.signalDone, SysEvent.dequeueSentinel,
   SysEvent.workerExit, SysEvent.joinWorkers]

/-- A server holding a single-page delta feed that ends in a delta
link at once. -/
def c1Server : String → HttpResponse := fun u =>
  if u = freshDeltaEndpoint wArgs then
    HttpResponse.ok { value := [], link := PageLink.deltaLink "D" }
  else HttpResponse.err 404

/-- A delta item with the file facet and a page-provided download URL. -/
def c6Item : Item :=
  { id := "i1", name := "a.txt", deleted := false, folder := false, file := true
    mimeType := some "text/plain", size := 5
    lastModifiedDateTime := "2024-01-01T00:00:00Z"
    downloadUrl := "https://dl.example/a", parentPath := "/drive/root:"
    parentDriveId := "d1" }

/-- The record `emitItem` produces from `c6Item`. -/
def c6File : FileInfo :=
  { id := "i1", name := "a.txt", path := "alice/a.txt", size := 5
    lastModifiedDateTime := "2024-01-01T00:00:00Z", mimeType := "text/plain"
    downloadUrl := "https://dl.example/a" }

/-- A file item whose page included no download URL and whose id is
empty: line 1158's `if not download_url and item_id:` guard fails, so
no URL is synthesized even though `parentReference.driveId` is
present. -/
def c7Item : Item :=
  { id := "", name := "b.txt", deleted := false, folder := false, file := true
    mimeType := none, size := 3, lastModifiedDateTime := "2024-01-02T00:00:00Z"
    downloadUrl := "", parentPath := "", parentDriveId := "d1" }

/-- The record `emitItem` produces from `c7Item`: its download URL is
the empty string. -/
def c7Out : FileInfo :=
  { id := "", name := "b.txt", path := "alice/b.txt", size := 3
    lastModifiedDateTime := "2024-01-02T00:00:00Z"
    mimeType := "application/octet-stream", downloadUrl := "" }

/-- A file item lacking a download URL but carrying a non-empty id
and no parent drive id. -/
def c7wItem : Item :=
  { id := "i9", name := "c.md", deleted := false, folder := false, file := true
    mimeType := some "text/markdown", size := 7
    lastModifiedDateTime := "2024-01-02T12:00:00Z", downloadUrl := ""
    parentPath := "/drive/root:/sub", parentDriveId := "" }

/-- The record `emitItem` produces from `c7wItem`. -/
def c7wOut : FileInfo :=
  { id := "i9", name := "c.md", path := "alice/sub/c.md", size := 7
    lastModifiedDateTime := "2024-01-02T12:00:00Z", mimeType := "text/markdown"
    downloadUrl := "https://graph.microsoft.com/v1.0/users/u1/drive/items/i9/content" }

/-- Worker environment: S3 destination holding the object with the
matching source-modified-time metadata. -/
def c2Env : WorkerEnv :=
  { destType := "aws_s3", head := headOf (some "2024-01-01T00:00:00Z")
    dryRun := false, uploadSucceeds := true, destPref := "backups/" }

/-- Worker environment whose head request raised an exception. -/
def c10Env : WorkerEnv :=
  { destType := "aws_s3", head := HeadOutcome.exnFailure, dryRun := false
    uploadSucceeds := true, destPref := "backups/" }

/-- The stored-cursor URL used in the 410 scenario. -/
def c4CursorUrl : String := "https://graph.microsoft.com/v1.0/delta?token=old"

/-- A server that rejects the stored cursor with 410 and answers the
fresh delta endpoint with a page that carries one file item and the
terminal delta link: the fallback scenario of claim C4. -/
def c4Server : String → HttpResponse := fun u =>
  if u = c4CursorUrl then HttpResponse.err 410
  else if u = freshDeltaEndpoint wArgs then
    HttpResponse.ok { value := [c6Item], link := PageLink.deltaLink "ND" }
  else HttpResponse.err 404

/-- A target whose workers uploaded nothing (one file skipped). -/
def c8Stats : TargetStats :=
  { files_processed := 1, files_uploaded := 0, files_skipped := 1
    bytes_transferred := 0, errors := [] }

/-- A successfully emitted item passed the deleted, folder and file
facet checks of lines 1124-1133. -/
theorem emitItem_facets {args : WalkArgs} {item : Item} {f : FileInfo}
    (h : emitItem args item = some f) :
    item.deleted = false ∧ item.folder = false ∧ item.file = true := by
  by_cases hd : item.deleted = true
  · simp [emitItem, hd] at h
  · by_cases hfo : item.folder = true
    · simp [emitItem, hd, hfo] at h
    · by_cases hfi : item.file = true
      · exact ⟨by simpa using hd, by simpa using hfo, hfi⟩
      · simp [emitItem, hd, hfo, hfi] at h

/-- The download URL of an emitted record is the one computed by
lines 1153-1170. -/
theorem emitItem_downloadUrl {args : WalkArgs} {item : Item} {f : FileInfo}
    (h : emitItem args item = some f) :
    f.downloadUrl = computeDownloadUrl args item := by
  rcases emitItem_facets h with ⟨h1, h2, h3⟩
  simp [emitItem, h1, h2, h3] at h
  subst h
  rfl

/-- C6: every item a delta page contributes to the walker's output
carries the `file` facet; deleted items and folder items are never
emitted (lines 1122-1133). -/
theorem C6_delta_page_file_facet (args : WalkArgs) (items : List Item)
    (f : FileInfo) (hf : f ∈ processDeltaItems args items) :
    ∃ item, item ∈ items ∧ item.deleted = false ∧ item.folder = false ∧
      item.file = true ∧ emitItem args item = some f := by
  rcases List.mem_filterMap.mp hf with ⟨item, hmem, hemit⟩
  rcases emitItem_facets hemit with ⟨h1, h2, h3⟩
  exact ⟨item, hmem, h1, h2, h3, hemit⟩

/-- Witness for C6 at a concrete one-item delta page. -/
theorem C6_delta_page_file_facet_witness :
    ∃ item, item ∈ [c6Item] ∧ item.deleted = false ∧ item.folder = false ∧
      item.file = true ∧ emitItem wArgs item = some c6File :=
  C6_delta_page_file_facet wArgs [c6Item] c6File (by decide)

/-- Counterexample for C7 as stated: `c7Item` is emitted, its page
included no download reference, its `parentReference.driveId` is
present, yet the emitted record's download URL is the empty string —
not the synthesized `/drives/{driveId}/.../content` URL — because the
guard `if not download_url and item_id:` (line 1158) fails on the
empty item id. -/
theorem C7_counterexample :
    emitItem wArgs c7Item = some c7Out ∧ c7Item.downloadUrl = "" ∧
      c7Item.parentDriveId ≠ "" ∧ c7Out.downloadUrl = "" ∧
      c7Out.downloadUrl ≠ driveContentUrl c7Item.parentDriveId c7Item.id ∧
      c7Out.downloadUrl ≠ resourceContentUrl wArgs c7Item.id := by
  decide

/-- C7 (amended): for every emitted file whose page did not include a
download reference and whose item id is non-empty, the walker
synthesizes `/drives/{driveId}/items/{id}/content` from
`parentReference.driveId` when that reference is present, and falls
back to the resource-type URL when it is missing. -/
theorem C7_download_url_synthesis (args : WalkArgs) (item : Item) (f : FileInfo)
    (hemit : emitItem args item = some f) (hurl : item.downloadUrl = "")
    (hid : item.id ≠ "") :
    f.downloadUrl =
      if item.parentDriveId ≠ "" then driveContentUrl item.parentDriveId item.id
      else resourceContentUrl args item.id := by
  rw [emitItem_downloadUrl hemit]
  unfold computeDownloadUrl
  rw [if_neg (by simp [hurl]), if_pos hid]

/-- Witness for the amended C7 at a concrete item with no drive
reference. -/
theorem C7_download_url_synthesis_witness :
    c7wOut.downloadUrl =
      if c7wItem.parentDriveId ≠ "" then
        driveContentUrl c7wItem.parentDriveId c7wItem.id
      else resourceContentUrl wArgs c7wItem.id :=
  C7_download_url_synthesis wArgs c7wItem c7wOut (by decide) (by decide) (by decide)

/-- C2: against a destination that answers the head request normally
(`stored` is the `source-modified-time` metadata of the object at the
file's key, `none` when the key is absent), the worker downloads and
uploads only when the object is absent or its stored metadata differs
from the incoming modification time; when the stored metadata equals
it byte-exactly the file is marked skipped and no download or upload
happens (lines 347-406 and 586-601). -/
theorem C2_skip_if_unchanged (env : WorkerEnv) (f : FileInfo)
    (stored : Option String) (henv : env.destType = "aws_s3")
    (hhead : env.head = headOf stored) :
    ((parallel_upload_worker_step env f).2 ≠ [] →
      stored = none ∨ ∃ m, stored = some m ∧ m ≠ f.lastModifiedDateTime) ∧
    (stored = some f.lastModifiedDateTime →
      (parallel_upload_worker_step env f).1.skipped = true ∧
      (parallel_upload_worker_step env f).2 = []) := by
  constructor
  · intro heff
    by_cases hc : check_s3_file_exists env.destType env.head f.lastModifiedDateTime
    · exact absurd (by unfold parallel_upload_worker_step; rw [if_pos hc]) heff
    · cases stored with
      | none => exact Or.inl rfl
      | some m =>
        refine Or.inr ⟨m, rfl, fun hm => hc ?_⟩
        subst hm
        simp [check_s3_file_exists, henv, hhead, headOf]
  · intro hst
    have hc : check_s3_file_exists env.destType env.head f.lastModifiedDateTime := by
      subst hst
      simp [check_s3_file_exists, henv, hhead, headOf]
    constructor
    · unfold parallel_upload_worker_step; rw [if_pos hc]
    · unfold parallel_upload_worker_step; rw [if_pos hc]

/-- Witness for C2: the object is present with identical metadata, so
the concrete worker step skips with no effects. -/
theorem C2_skip_if_unchanged_witness :
    (parallel_upload_worker_step c2Env c1File).1.skipped = true ∧
    (parallel_upload_worker_step c2Env c1File).2 = [] :=
  (C2_skip_if_unchanged c2Env c1File (some "2024-01-01T00:00:00Z") rfl rfl).2 rfl

/-- C10: when the head request fails other than with a 404 — a
non-404 client error or an exception — `_check_s3_file_exists`
returns `False` (lines 395-406) and the worker takes the upload path:
it never reports a skip, so a head failure can cause a redundant
re-upload but not a false skip. -/
theorem C10_head_failure_never_skips (env : WorkerEnv) (f : FileInfo)
    (hfail : (∃ c, env.head = HeadOutcome.clientError c) ∨
      env.head = HeadOutcome.exnFailure)
    (hdry : env.dryRun = false) (hurl : f.downloadUrl ≠ "") :
    check_s3_file_exists env.destType env.head f.lastModifiedDateTime = false ∧
    (parallel_upload_worker_step env f).1.skipped = false ∧
    WorkerEffect.download f.downloadUrl ∈ (parallel_upload_worker_step env f).2 := by
  have hc : check_s3_file_exists env.destType env.head f.lastModifiedDateTime = false := by
    rcases hfail with ⟨c, hco⟩ | hco <;> simp [check_s3_file_exists, hco]
  refine ⟨hc, ?_, ?_⟩ <;>
    cases hu : env.uploadSucceeds <;>
      simp [parallel_upload_worker_step, hc, hdry, hurl, hu]

/-- Witness for C10: a head-request exception on a concrete file
leads to the download path, not a skip. -/
theorem C10_head_failure_never_skips_witness :
    check_s3_file_exists c10Env.destType c10Env.head c1File.lastModifiedDateTime = false ∧
    (parallel_upload_worker_step c10Env c1File).1.skipped = false ∧
    WorkerEffect.download c1File.downloadUrl ∈ (parallel_upload_worker_step c10Env c1File).2 :=
  C10_head_failure_never_skips c10Env c1File (Or.inr rfl) rfl (by decide)

/-- The aggregated upload counter is the sum of the per-target upload
counters (lines 724-730). -/
theorem aggregateStats_uploaded (l : List TargetStats) :
    (aggregateStats l).files_uploaded = (l.map fun t => t.files_uploaded).sum := by
  have key : ∀ (l : List TargetStats) (acc : TargetStats),
      (l.foldl
        (fun acc t =>
          { files_processed := acc.files_processed + t.files_processed
            files_uploaded := acc.files_uploaded + t.files_uploaded
            files_skipped := acc.files_skipped + t.files_skipped
            bytes_transferred := acc.bytes_transferred + t.bytes_transferred
            errors := acc.errors ++ t.errors })
        acc).files_uploaded = acc.files_uploaded + (l.map fun t => t.files_uploaded).sum := by
    intro l
    induction l with
    | nil => intro acc; simp
    | cons t ts ih =>
      intro acc
      simp [List.foldl_cons, ih, Nat.add_assoc]
  have h0 := key l
    { files_processed := 0, files_uploaded := 0, files_skipped := 0
      bytes_transferred := 0, errors := [] }
  simpa [aggregateStats] using h0

/-- C8: `{source}_last_backup.json` is written exactly when the
aggregated per-source statistics show `files_uploaded > 0` and the
job is not a dry run (lines 549-553); a source whose every target
uploaded nothing writes nothing. -/
theorem C8_last_backup_gate (targets : List TargetStats) (dryRun : Bool)
    (destPref source : String) :
    (processSourceSaves (aggregateStats targets) dryRun destPref source ≠ [] ↔
      0 < (aggregateStats targets).files_uploaded ∧ dryRun = false) ∧
    (processSourceSaves (aggregateStats targets) dryRun destPref source ≠ [] →
      processSourceSaves (aggregateStats targets) dryRun destPref source =
        [backupMetadataKey destPref source]) ∧
    ((∀ t ∈ targets, t.files_uploaded = 0) →
      processSourceSaves (aggregateStats targets) dryRun destPref source = []) := by
  refine ⟨?_, ?_, ?_⟩
  · unfold processSourceSaves
    by_cases h : 0 < (aggregateStats targets).files_uploaded ∧ dryRun = false
    · rw [if_pos h]; simpa using h
    · rw [if_neg h]; simpa using h
  · intro hne
    unfold processSourceSaves at hne ⊢
    by_cases h : 0 < (aggregateStats targets).files_uploaded ∧ dryRun = false
    · rw [if_pos h]
    · rw [if_neg h] at hne; exact absurd rfl hne
  · intro hz
    have hzero : (aggregateStats targets).files_uploaded = 0 := by
      rw [aggregateStats_uploaded]
      refine List.sum_eq_zero ?_
      intro x hx
      rcases List.mem_map.mp hx with ⟨t, ht, rfl⟩
      exact hz t ht
    unfold processSourceSaves
    rw [if_neg (by simp [hzero])]

/-- Witness for C8: a source whose single target only skipped writes
no `last_backup` record. -/
theorem C8_last_backup_gate_witness :
    processSourceSaves (aggregateStats [c8Stats]) false "backups/" "src" = [] :=
  (C8_last_backup_gate [c8Stats] false "backups/" "src").2.2 (by decide)

/-- C9 fails on the code: on a 200 download `_stream_to_aws_s3` holds
the whole response body in one buffer (`io.BytesIO(response.content)`,
line 1559), so the memory held by the upload path equals the file
size and exceeds any fixed chunk bound for a large enough file. -/
theorem C9_upload_buffers_whole_file :
    (∀ body : List Nat, streamToS3Buffer { status := 200, content := body } = body) ∧
    (∀ bound : Nat, ∃ resp : DownloadResp, resp.status = 200 ∧
      (streamToS3Buffer resp).length = resp.content.length ∧
      bound < (streamToS3Buffer resp).length) := by
  constructor
  · intro body; simp [streamToS3Buffer]
  · intro bound
    refine ⟨{ status := 200, content := List.replicate (bound + 1) 0 }, rfl, ?_, ?_⟩ <;>
      simp [streamToS3Buffer]

/-- C3 fails on the code: `update_stats` increments
`files_processed` without holding `results_lock` (the lock acquisition
on line 107 is commented out although the docstring says
thread-safe), so two workers' `files_processed += 1` can interleave
read-read-write-write and lose an update: after two processed files
the counter reads 1, whereas the serialized semantics of
`update_stats` gives 2. -/
theorem C3_stats_lost_update :
    raceProgramOrder c3Sched ∧
    (runRace c3Sched { processed := 0, temp0 := 0, temp1 := 0 }).processed = 1 ∧
    (runStats [skippedCall, skippedCall]).files_processed = 2 ∧
    (runRace c3Sched { processed := 0, temp0 := 0, temp1 := 0 }).processed ≠
      (runStats [skippedCall, skippedCall]).files_processed := by
  refine ⟨?_, by decide, by decide, by decide⟩
  unfold raceProgramOrder
  decide

/-- Counterexample for C5 as stated: on the same response sequence —
a 429 carrying `Retry-After: 30` followed by a 200 — the delta-page
loop (lines 1044-1056) sleeps 1 s, ignoring the header, while the
content-download loop (lines 1531-1553) sleeps the header's 30 s: the
policy is not uniform and delta requests do not honor `Retry-After`. -/
theorem C5_counterexample :
    deltaRetrySleeps [200] = [1] ∧
    downloadRetrySleeps [(429, some "30"), (200, none)] = [30] ∧
    (1 : Int) ≠ 30 := by
  decide

/-- The delta-page backoff sleeps are an initial segment of the pure
doubling schedule, whatever the responses: no header alters them. -/
theorem deltaBackoffWaits_take (statuses : List Nat) :
    ∀ (fuel : Nat) (delay : Int), ∃ k,
      deltaBackoffWaits fuel delay statuses = (deltaWaitsFull fuel delay).take k := by
  induction statuses with
  | nil =>
    intro fuel delay
    refine ⟨0, ?_⟩
    cases fuel <;> simp [deltaBackoffWaits]
  | cons st rest ih =>
    intro fuel delay
    cases fuel with
    | zero => exact ⟨0, by simp [deltaBackoffWaits]⟩
    | succ n =>
      by_cases h200 : st = 200
      · exact ⟨1, by simp [deltaBackoffWaits, deltaWaitsFull, h200]⟩
      · rcases ih n (delay * 2) with ⟨k, hk⟩
        exact ⟨k + 1, by simp [deltaBackoffWaits, deltaWaitsFull, h200, hk]⟩

/-- The delta-page loop sleeps at most `fuel` times. -/
theorem deltaBackoffWaits_length (statuses : List Nat) :
    ∀ (fuel : Nat) (delay : Int),
      (deltaBackoffWaits fuel delay statuses).length ≤ fuel := by
  induction statuses with
  | nil => intro fuel delay; cases fuel <;> simp [deltaBackoffWaits]
  | cons st rest ih =>
    intro fuel delay
    cases fuel with
    | zero => simp [deltaBackoffWaits]
    | succ n =>
      by_cases h200 : st = 200
      · simp [deltaBackoffWaits, h200]
      · have h := ih n (delay * 2)
        simp [deltaBackoffWaits, h200]
        omega

/-- The download loop sleeps at most `fuel - 1` times (never after
the final attempt). -/
theorem downloadRetryWaits_length (attempts : List (Nat × Option String)) :
    ∀ (fuel : Nat) (delay : Int),
      (downloadRetryWaits fuel delay attempts).length ≤ fuel - 1 := by
  induction attempts with
  | nil => intro fuel delay; cases fuel <;> simp [downloadRetryWaits]
  | cons att rest ih =>
    intro fuel delay
    cases fuel with
    | zero => simp [downloadRetryWaits]
    | succ n =>
      rcases att with ⟨st, ra⟩
      by_cases h200 : st = 200
      · simp [downloadRetryWaits, h200]
      · by_cases h429 : st = 429
        · by_cases hn : n = 0
          · simp [downloadRetryWaits, h200, h429, hn]
          · have h := ih n (min (delay * 2) 60)
            simp [downloadRetryWaits, h200, h429, hn]
            omega
        · simp [downloadRetryWaits, h200, h429]

/-- C5 (amended): the two retry loops are not uniform.  Content
downloads honor `Retry-After` on a 429 (falling back to the current
delay when the header is absent or unparseable), double the delay
capped at 60 s, and make at most 5 attempts (at most 4 sleeps);
delta page requests instead always sleep the fixed doubling schedule
1, 2, 4, 8, 16 s — ignoring any `Retry-After` header — for at most 5
retries. -/
theorem C5_retry_policy (statuses : List Nat)
    (attempts rest : List (Nat × Option String)) (s : String) :
    deltaWaitsFull 5 1 = [1, 2, 4, 8, 16] ∧
    (∃ k, deltaRetrySleeps statuses = ([1, 2, 4, 8, 16] : List Int).take k) ∧
    (deltaRetrySleeps statuses).length ≤ 5 ∧
    downloadRetrySleeps ((429, some s) :: rest) =
      (pyInt s).getD 1 :: downloadRetryWaits 4 (min 2 60) rest ∧
    (downloadRetrySleeps attempts).length ≤ 4 := by
  refine ⟨by decide, ?_, ?_, ?_, ?_⟩
  · have h := deltaBackoffWaits_take statuses 5 1
    simpa [deltaRetrySleeps, show deltaWaitsFull 5 1 = [1, 2, 4, 8, 16] by decide]
      using h
  · exact deltaBackoffWaits_length statuses 5 1
  · simp [downloadRetrySleeps, downloadRetryWaits]
  · exact downloadRetryWaits_length attempts 5 1

/-- The fresh-delta pagination after fallback yields at most the
terminal token and never a file (lines 1086-1100). -/
theorem fetchDeltaLink_shape (server : String → HttpResponse) :
    ∀ (fuel : Nat) (endpoint : String),
      fetchDeltaLink server endpoint fuel = [] ∨
      ∃ d, fetchDeltaLink server endpoint fuel = [Emission.deltaToken d] := by
  intro fuel
  induction fuel with
  | zero => intro ep; exact Or.inl rfl
  | succ n ih =>
    intro ep
    cases hs : server ep with
    | ok page =>
      cases hl : page.link with
      | nextLink nx =>
        have h := ih nx
        simpa [fetchDeltaLink, hs, hl] using h
      | deltaLink d => exact Or.inr ⟨d, by simp [fetchDeltaLink, hs, hl]⟩
      | noLink => exact Or.inl (by simp [fetchDeltaLink, hs, hl])
    | err st => exact Or.inl (by simp [fetchDeltaLink, hs])

/-- C4: when the delta request for a stored cursor returns 410 and a
fallback timestamp exists, the walker emits exactly the fallback
walk's files and then at most the terminal marker with the new delta
link: no item of the fresh delta pages is emitted (lines 1067-1102). -/
theorem C4_fallback_fresh_delta (server : String → HttpResponse) (args : WalkArgs)
    (fs : List FileInfo) (cursorUrl : String) (fuel : Nat)
    (h410 : server cursorUrl = HttpResponse.err 410) :
    ∃ tail, stream_delta_files server args (some fs) (some cursorUrl) (fuel + 1) =
        fs.map Emission.file ++ tail ∧
      (tail = [] ∨ ∃ d, tail = [Emission.deltaToken d]) := by
  refine ⟨fetchDeltaLink server (freshDeltaEndpoint args) (fuel + 1), ?_,
    fetchDeltaLink_shape server (fuel + 1) _⟩
  simp [stream_delta_files, streamDeltaLoop, h410, handleDeltaExpired]

/-- Witness for C4: the concrete server rejects the cursor with 410
and carries a file item on the fresh page; the walk emits the
fallback file and then only the new token. -/
theorem C4_fallback_fresh_delta_witness :
    ∃ tail, stream_delta_files c4Server wArgs (some [c1File]) (some c4CursorUrl) 3 =
        [c1File].map Emission.file ++ tail ∧
      (tail = [] ∨ ∃ d, tail = [Emission.deltaToken d]) :=
  C4_fallback_fresh_delta c4Server wArgs [c1File] c4CursorUrl 2 (by decide)

/-- When the stream carries no terminal marker, no token is captured
(lines 698-702). -/
theorem finalDeltaToken_eq_none {ems : List Emission}
    (h : ∀ t, Emission.deltaToken t ∉ ems) : finalDeltaToken ems = none := by
  have key : ∀ (l : List Emission) (acc : Option String),
      (∀ t, Emission.deltaToken t ∉ l) →
      l.foldl
        (fun acc e =>
          match e with
          | .deltaToken t => some t
          | .file _ => acc)
        acc = acc := by
    intro l
    induction l with
    | nil => intro acc _; rfl
    | cons e es ih =>
      intro acc hno
      cases e with
      | file f =>
        simp only [List.foldl_cons]
        exact ih acc fun t ht => hno t (List.mem_cons_of_mem _ ht)
      | deltaToken t => exact absurd (List.mem_cons_self _ _) (hno t)
  exact key ems none h

/-- A captured token occurs as a terminal marker on the stream. -/
theorem finalDeltaToken_mem {ems : List Emission} {t : String}
    (h : finalDeltaToken ems = some t) : Emission.deltaToken t ∈ ems := by
  have key : ∀ (l : List Emission) (acc : Option String),
      l.foldl
        (fun acc e =>
          match e with
          | .deltaToken u => some u
          | .file _ => acc)
        acc = some t →
      Emission.deltaToken t ∈ l ∨ acc = some t := by
    intro l
    induction l with
    | nil => intro acc h; exact Or.inr h
    | cons e es ih =>
      intro acc h
      cases e with
      | file f =>
        rcases ih acc h with hm | ha
        · exact Or.inl (List.mem_cons_of_mem _ hm)
        · exact Or.inr ha
      | deltaToken u =>
        rcases ih (some u) h with hm | ha
        · exact Or.inl (List.mem_cons_of_mem _ hm)
        · have hut : u = t := by injection ha
          cases hut
          exact Or.inl (List.mem_cons_self _ _)
  rcases key ems none h with hm | ha
  · exact hm
  · exact Option.noConfusion ha

/-- Any token the fresh-delta pagination returns comes from a server
page carrying that delta link. -/
theorem fetchDeltaLink_origin (server : String → HttpResponse) :
    ∀ (fuel : Nat) (endpoint t : String),
      Emission.deltaToken t ∈ fetchDeltaLink server endpoint fuel →
      ∃ url page, server url = HttpResponse.ok page ∧
        page.link = PageLink.deltaLink t := by
  intro fuel
  induction fuel with
  | zero => intro ep t h; simp [fetchDeltaLink] at h
  | succ n ih =>
    intro ep t h
    cases hs : server ep with
    | ok page =>
      cases hl : page.link with
      | nextLink nx =>
        simp only [fetchDeltaLink, hs, hl] at h
        exact ih nx t h
      | deltaLink d =>
        simp [fetchDeltaLink, hs, hl] at h
        exact ⟨ep, page, hs, by rw [hl, h]⟩
      | noLink => simp [fetchDeltaLink, hs, hl] at h
    | err st => simp [fetchDeltaLink, hs] at h

/-- Any terminal token the delta walk emits comes from a server page
carrying that delta link (lines 1093-1095 and 1191-1195): a walk that
never reached a terminal delta link emits no token. -/
theorem streamDeltaLoop_token_origin (server : String → HttpResponse)
    (args : WalkArgs) :
    ∀ (fuel : Nat) (fb : Option (List FileInfo)) (endpoint t : String),
      Emission.deltaToken t ∈ streamDeltaLoop server args fb endpoint fuel →
      ∃ url page, server url = HttpResponse.ok page ∧
        page.link = PageLink.deltaLink t := by
  intro fuel
  induction fuel with
  | zero => intro fb ep t h; simp [streamDeltaLoop] at h
  | succ n ih =>
    intro fb ep t h
    cases hs : server ep with
    | err status =>
      by_cases h410 : status = 410
      · cases fb with
        | some fs =>
          have h2 : Emission.deltaToken t ∈
              fetchDeltaLink server (freshDeltaEndpoint args) (n + 1) := by
            simpa [streamDeltaLoop, hs, h410, handleDeltaExpired] using h
          exact fetchDeltaLink_origin server (n + 1) _ t h2
        | none =>
          simp only [streamDeltaLoop, hs, h410, if_true] at h
          exact ih none _ t h
      · simp [streamDeltaLoop, hs, h410] at h
    | ok page =>
      simp only [streamDeltaLoop, hs] at h
      rcases List.mem_append.mp h with hmem | hmem
      · rcases List.mem_map.mp hmem with ⟨f, _, hf⟩
        exact absurd hf (by simp)
      · cases hl : page.link with
        | nextLink nx =>
          rw [hl] at hmem
          exact ih fb nx t (by simpa using hmem)
        | deltaLink d =>
          rw [hl] at hmem
          simp at hmem
          exact ⟨ep, page, hs, by rw [hl, hmem]⟩
        | noLink =>
          rw [hl] at hmem
          simp at hmem

/-- A cursor-save event in the producer's trace means the producer
captured exactly that token from the stream (lines 698-709). -/
theorem producer_trace_save_mem {ems : List Emission} {dryRun : Bool} {t : String}
    (h : SysEvent.saveCursor t ∈ producer_trace ems dryRun) :
    finalDeltaToken ems = some t := by
  unfold producer_trace at h
  rcases List.mem_append.mp h with hab | hc
  · rcases List.mem_append.mp hab with ha | hb
    · rcases List.mem_filterMap.mp ha with ⟨e, _, he⟩
      cases e <;> simp at he
    · cases hfd : finalDeltaToken ems with
      | none => rw [hfd] at hb; simp at hb
      | some u =>
        rw [hfd] at hb
        by_cases hcond : u ≠ "" ∧ dryRun = false
        · simp [hcond] at hb
          rw [hb]
        · simp [hcond] at hb
  · simp at hc

/-- C1 (amended): the per-target cursor is saved only when the walk
emitted the terminal delta link — an unfinished walk never advances it —
and within the producer thread the save is ordered after every
enqueue but before the sentinels are sent and the workers are joined
(lines 697-722); it is not ordered after worker completions. -/
theorem C1_cursor_write_discipline :
    (∀ (server : String → HttpResponse) (args : WalkArgs)
      (fb : Option (List FileInfo)) (tok : Option String) (fuel : Nat)
      (dryRun : Bool) (t : String),
      SysEvent.saveCursor t ∈
        producer_trace (stream_delta_files server args fb tok fuel) dryRun →
      ∃ url page, server url = HttpResponse.ok page ∧
        page.link = PageLink.deltaLink t) ∧
    (∀ (ems : List Emission) (dryRun : Bool),
      ∃ enqs saves,
        producer_trace ems dryRun =
          enqs ++ saves ++ [SysEvent.signalDone, SysEvent.joinWorkers] ∧
        (∀ e ∈ enqs, ∃ f, e = SysEvent.enqueue f) ∧
        (∀ e ∈ saves, ∃ u, e = SysEvent.saveCursor u) ∧
        ((∀ u, Emission.deltaToken u ∉ ems) → saves = []) ∧
        (dryRun = true → saves = [])) := by
  constructor
  · intro server args fb tok fuel dryRun t h
    exact streamDeltaLoop_token_origin server args fuel fb _ t
      (finalDeltaToken_mem (producer_trace_save_mem h))
  · intro ems dryRun
    refine ⟨ems.filterMap
        (fun e =>
          match e with
          | .file f => some (SysEvent.enqueue f)
          | .deltaToken _ => none),
      (match finalDeltaToken ems with
       | some t => if t ≠ "" ∧ dryRun = false then [SysEvent.saveCursor t] else []
       | none => []), rfl, ?_, ?_, ?_, ?_⟩
    · intro e he
      rcases List.mem_filterMap.mp he with ⟨x, _, hx⟩
      cases x with
      | file f =>
        injection hx with hx
        exact ⟨f, hx.symm⟩
      | deltaToken u => simp at hx
    · intro e he
      cases hfd : finalDeltaToken ems with
      | none => rw [hfd] at he; simp at he
      | some u =>
        rw [hfd] at he
        by_cases hcond : u ≠ "" ∧ dryRun = false
        · simp [hcond] at he
          exact ⟨u, he⟩
        · simp [hcond] at he
    · intro hno
      rw [finalDeltaToken_eq_none hno]
    · intro hdry
      cases hfd : finalDeltaToken ems with
      | none => rfl
      | some u => simp [hdry]

/-- Witness for the amended C1: on the concrete one-page server the
saved token "D" indeed comes from a server page whose link is the
terminal delta link. -/
theorem C1_cursor_write_discipline_witness :
    ∃ url page, c1Server url = HttpResponse.ok page ∧
      page.link = PageLink.deltaLink "D" :=
  C1_cursor_write_discipline.1 c1Server wArgs none none 2 false "D" (by decide)

/-- Counterexample for C1 as stated: a schedule of
`_process_items_with_delta` with one worker that respects every
ordering constraint of the code, in which the cursor save (line 709)
occurs strictly before the worker finishes processing the enqueued
file — so the cursor write is not ordered after all worker
completions. -/
theorem C1_counterexample :
    ValidSchedule c1Ems false c1Sched ∧
    Precedes c1Sched (SysEvent.saveCursor c1Token) (SysEvent.processedFile c1File) := by
  constructor
  · unfold ValidSchedule Precedes
    refine ⟨by decide, by decide, ?_, ?_, by decide, by decide, by decide, ?_⟩
    · intro f hf
      simp [c1Sched] at hf
      subst hf
      decide
    · intro f hf
      simp [c1Sched] at hf
      subst hf
      decide
    · intro f hf
      simp [c1Sched] at hf
      subst hf
      decide
  · unfold Precedes
    decide

end OnedriveBackup

